import Mathlib

/-!
Shallow embedding of the sales-anomaly agent `src/agente.py`.

Modelling conventions:
* Calendar dates are natural numbers (one per day, ordered as dates are).
* Currency amounts, ratios and percentages are rationals.
* The pandas DataFrame read from the `vendas` table is a list of typed
  rows; the grouping, sorting and filtering operations of pandas are
  modelled by list functions with the same ordering contracts.
* `date.today()` is an effect; it is passed explicitly as a parameter
  `hoje` to every function that reads it.
* The debug `print` calls of the source are ignored: they carry no data.
* The human-readable `detalhe` string of an alert is pure presentation
  (an f-string over numbers that are also stored in `contexto`) and is
  not modelled; `tipo`, `severidade` and `contexto` are.
* Python exceptions are modelled with `Except`; the call to the
  undefined name `detectar_vendas_zeradas` in `main` raises `NameError`.
-/

/-- A raw row as read from the `vendas` table, before `preparar_df`.
The date and the amount may fail to parse (`pd.to_datetime` /
`pd.to_numeric` with `errors="coerce"` produce a null on failure),
which is modelled by `Option`. -/
structure LinhaBruta where
  id : Nat
  data_venda : Option Nat
  cliente : String
  valor_total : Option Rat
deriving DecidableEq

/-- A normalized sale row (the rows of the DataFrame after
`preparar_df`): a valid calendar date and a numeric amount. -/
structure Venda where
  id : Nat
  data_venda : Nat
  cliente : String
  valor_total : Rat
deriving DecidableEq

/-- `preparar_df` (src/agente.py:12-24): drops rows whose date did not
parse (`dropna` after the coercing `to_datetime`) and replaces an
unparsable amount by `0.0` (`to_numeric(..., errors="coerce").fillna(0.0)`). -/
def preparar_df (linhas : List LinhaBruta) : List Venda :=
  linhas.filterMap fun r =>
    r.data_venda.map fun d => ⟨r.id, d, r.cliente, r.valor_total.getD 0⟩

/-- Stable insertion into a list ordered by the Boolean relation `le`
(auxiliary for the sorts performed by pandas). -/
def insere {α : Type} (le : α → α → Bool) (a : α) : List α → List α
  | [] => [a]
  | b :: bs => if le a b then a :: b :: bs else b :: insere le a bs

/-- Stable sort by the Boolean relation `le`: the model of the
`sort_index` / `sort_values` calls of the source (only the ordering
contract of the result matters, not pandas' algorithm). -/
def ordena {α : Type} (le : α → α → Bool) : List α → List α
  | [] => []
  | a :: as => insere le a (ordena le as)

/-- The distinct sale dates of a record set in ascending order: the
index of `df.groupby("data_venda")... .sort_index()`. -/
def datasOrdenadas (df : List Venda) : List Nat :=
  ordena (fun a b => decide (a ≤ b)) ((df.map Venda.data_venda).dedup)

/-- Daily revenue series,
`df.groupby("data_venda")["valor_total"].sum().sort_index()`
(src/agente.py:52 and 102). -/
def porDiaSoma (df : List Venda) : List (Nat × Rat) :=
  (datasOrdenadas df).map fun d =>
    (d, ((df.filter fun v => decide (v.data_venda = d)).map Venda.valor_total).sum)

/-- Daily sale-count series,
`df.groupby("data_venda")["id"].count().sort_index()`
(src/agente.py:138); every row has a (non-null) id, so `count` is the
number of rows of the day. -/
def porDiaContagem (df : List Venda) : List (Nat × Nat) :=
  (datasOrdenadas df).map fun d =>
    (d, (df.filter fun v => decide (v.data_venda = d)).length)

/-- `serie_por_dia_completo` (src/agente.py:27-37): drops the last
bucket of a day-indexed series when its date is `hoje` (the current,
still-accumulating day). -/
def serie_por_dia_completo {α : Type} (hoje : Nat) (s : List (Nat × α)) : List (Nat × α) :=
  match s.getLast? with
  | none => s
  | some ultimo => if ultimo.1 = hoje then s.dropLast else s

/-- A JSON-compatible value of an alert's `contexto` payload (the
source stores strings, ints and floats there). -/
inductive CtxVal where
  | s (v : String)
  | n (v : Nat)
  | q (v : Rat)
deriving DecidableEq

/-- An incident candidate as built by the detectors (the dict returned
by each `detectar_*` function).  The `detalhe` field is presentation
only and is not modelled. -/
structure Alerta where
  tipo : String
  severidade : String
  contexto : List (String × CtxVal)
deriving DecidableEq

/-- The last two entries of a series, as
`((index[-2], iloc[-2]), (index[-1], iloc[-1]))`, i.e.
`(previous, latest)`; `none` when the series has fewer than two
entries.  Both drop detectors read their comparison points this way. -/
def lastTwo {α : Type} (s : List (Nat × α)) : Option ((Nat × α) × (Nat × α)) :=
  match s.reverse with
  | ultimo :: anterior :: _ => some (anterior, ultimo)
  | _ => none

/-- `detectar_queda_faturamento` (src/agente.py:44-95): revenue drop
between the last two complete days.  The guard `len(por_dia) < 2` of
the source is the fallback branch of the match on the reversed
series. -/
def detectar_queda_faturamento (hoje : Nat) (queda_pct : Rat) (df : List Venda) :
    Option Alerta :=
  if df.isEmpty then none
  else
    match (serie_por_dia_completo hoje (porDiaSoma df)).reverse with
    | (ultimo_dia, faturamento_ultimo) :: (dia_anterior, faturamento_anterior) :: _ =>
      if faturamento_anterior = 0 then none
      else
        let variacao := (faturamento_ultimo - faturamento_anterior) / faturamento_anterior
        if variacao ≤ -queda_pct then
          some ⟨"queda_faturamento", "alta",
            [("dia_anterior", CtxVal.n dia_anterior),
             ("ultimo_dia", CtxVal.n ultimo_dia),
             ("faturamento_anterior", CtxVal.q faturamento_anterior),
             ("faturamento_ultimo", CtxVal.q faturamento_ultimo),
             ("variacao_pct", CtxVal.q (variacao * 100)),
             ("queda_pct_configurada", CtxVal.q (queda_pct * 100))]⟩
        else none
    | _ => none

/-- `detectar_faturamento_muito_baixo` (src/agente.py:98-128): floor
breach on the latest complete day.  The source inlines the current-day
filter (lines 104-106) instead of calling `serie_por_dia_completo`;
the inline copy is kept here. -/
def detectar_faturamento_muito_baixo (hoje : Nat) (limite : Rat) (df : List Venda) :
    Option Alerta :=
  if df.isEmpty then none
  else
    let por_dia0 := porDiaSoma df
    let por_dia :=
      match por_dia0.getLast? with
      | some u => if u.1 = hoje then por_dia0.dropLast else por_dia0
      | none => por_dia0
    match por_dia.getLast? with
    | none => none
    | some (ultimo_dia, total) =>
      if total ≤ limite then
        some ⟨"faturamento_muito_baixo", "alta",
          [("dia", CtxVal.n ultimo_dia),
           ("faturamento_total", CtxVal.q total),
           ("limite_configurado", CtxVal.q limite)]⟩
      else none

/-- `detectar_queda_numero_vendas` (src/agente.py:130-180): drop in the
daily sale count, with two-tier severity. -/
def detectar_queda_numero_vendas (hoje : Nat) (queda_pct : Rat) (df : List Venda) :
    Option Alerta :=
  if df.isEmpty then none
  else
    match (serie_por_dia_completo hoje (porDiaContagem df)).reverse with
    | (ultimo_dia, vendas_ultimo) :: (dia_anterior, vendas_anterior) :: _ =>
      if vendas_anterior = 0 then none
      else
        let variacao : Rat := ((vendas_ultimo : Rat) - (vendas_anterior : Rat)) / (vendas_anterior : Rat)
        if variacao ≤ -queda_pct then
          some ⟨"queda_numero_vendas",
            if (6/10 : Rat) ≤ |variacao| then "alta" else "media",
            [("dia_anterior", CtxVal.n dia_anterior),
             ("ultimo_dia", CtxVal.n ultimo_dia),
             ("vendas_anterior", CtxVal.n vendas_anterior),
             ("vendas_ultimo", CtxVal.n vendas_ultimo),
             ("variacao_pct", CtxVal.q (variacao * 100)),
             ("queda_pct_configurada", CtxVal.q (queda_pct * 100))]⟩
        else none
    | _ => none

/-- The `(day, customer, amount) -> size` grouping of the duplicate
heuristic (src/agente.py:193-198), keys in first-appearance order; the
subsequent sort by repetition count makes the key order immaterial
(pandas leaves the order of count ties unspecified as well). -/
def grupos (df : List Venda) : List ((Nat × String × Rat) × Nat) :=
  ((df.map fun v => (v.data_venda, v.cliente, v.valor_total)).dedup).map
    fun c => (c, (df.filter fun v => decide ((v.data_venda, v.cliente, v.valor_total) = c)).length)

/-- `detectar_possivel_fraude_duplicidade` (src/agente.py:183-226):
groups by (day, customer, amount), sorts the groups by repetition count
descending, keeps those reaching the threshold, and reports the first
(strongest) one. -/
def detectar_possivel_fraude_duplicidade (limite_repeticoes : Nat) (df : List Venda) :
    Option Alerta :=
  if df.isEmpty then none
  else
    let agrupado := ordena (fun a b => decide (b.2 ≤ a.2)) (grupos df)
    match agrupado.filter fun g => decide (limite_repeticoes ≤ g.2) with
    | [] => none
    | g :: _ =>
      some ⟨"possivel_fraude_duplicidade", "alta",
        [("data_venda", CtxVal.n g.1.1),
         ("cliente", CtxVal.s g.1.2.1),
         ("valor_total", CtxVal.q g.1.2.2),
         ("repeticoes", CtxVal.n g.2),
         ("limite_repeticoes", CtxVal.n limite_repeticoes)]⟩

/-- Exceptions a run can raise after a successful source read: the
`NameError` from calling the undefined `detectar_vendas_zeradas`
(src/agente.py:277), and a database error raised by a sink write. -/
inductive ErroPy where
  | nameError
  | dbError
deriving DecidableEq

/-- The detector list of `main` (src/agente.py:276-281).  Its first
lambda calls `detectar_vendas_zeradas`, a name defined nowhere in the
module, so invoking it raises `NameError` before any detector logic
runs; that call is modelled as `Except.error`.  Note that
`detectar_faturamento_muito_baixo` does not appear in the list. -/
def detectoresMain (hoje : Nat) : List (List Venda → Except ErroPy (Option Alerta)) :=
  [fun _ => Except.error ErroPy.nameError,
   fun d => Except.ok (detectar_queda_faturamento hoje (3/10) d),
   fun d => Except.ok (detectar_queda_numero_vendas hoje (3/10) d),
   fun d => Except.ok (detectar_possivel_fraude_duplicidade 3 d)]

/-- The body of `main`'s detector loop (src/agente.py:276-284): run the
detectors in order, appending each fired alert to the accumulator; a
raised exception aborts the loop. -/
def coletarAlertas (df : List Venda) :
    List (List Venda → Except ErroPy (Option Alerta)) → List Alerta →
      Except ErroPy (List Alerta)
  | [], acc => Except.ok acc
  | det :: resto, acc =>
    match det df with
    | Except.error e => Except.error e
    | Except.ok none => coletarAlertas df resto acc
    | Except.ok (some a) => coletarAlertas df resto (acc ++ [a])

/-- The detector loop of `main` started on the empty alert list. -/
def rodarDetectores (hoje : Nat) (df : List Venda) : Except ErroPy (List Alerta) :=
  coletarAlertas df (detectoresMain hoje) []

/-- The persistence loop of `main` (src/agente.py:288-290), with the
sink write `registrar_incidente` modelled by its failure predicate
(`falha a = true` means the INSERT for alert `a` raises).  Python
exception semantics abort the loop at the first failing write, so the
remaining alerts are never attempted.  The result lists the attempted
writes in order, each paired with its outcome. -/
def registrarTodos (falha : Alerta → Bool) : List Alerta → List (Alerta × Bool)
  | [] => []
  | a :: resto =>
    if falha a then [(a, false)]
    else (a, true) :: registrarTodos falha resto

/-- The terminal report of a run (src/agente.py:286-294): either the
incident summary or the neutral no-incident summary carrying the
whole-base total. -/
inductive Resumo where
  | incidentes (n : Nat)
  | semIncidentes (total_geral : Rat)
deriving DecidableEq

/-- `main` after a successful source read (src/agente.py:271-294):
normalize, run the detector loop, then either persist the fired alerts
and print the incident summary, or print the neutral summary with the
whole-base total.  A raised exception (the `NameError` of the loop, or
a write failure) aborts the run with that error; the second component
is the trace of attempted sink writes. -/
def mainRun (hoje : Nat) (falha : Alerta → Bool) (linhas : List LinhaBruta) :
    Except ErroPy Resumo × List (Alerta × Bool) :=
  let df := preparar_df linhas
  match rodarDetectores hoje df with
  | Except.error e => (Except.error e, [])
  | Except.ok alertas =>
    if alertas.isEmpty then
      (Except.ok (Resumo.semIncidentes ((df.map Venda.valor_total).sum)), [])
    else
      let escritas := registrarTodos falha alertas
      if escritas.all fun e => e.2 then
        (Except.ok (Resumo.incidentes alertas.length), escritas)
      else
        (Except.error ErroPy.dbError, escritas)

/-- Test-data builder: `linhasDia d n` is `n` sale rows of amount 1 on
day `d` (distinct ids). -/
def linhasDia (d : Nat) : Nat → List Venda
  | 0 => []
  | n + 1 => ⟨d * 100 + n, d, "c", 1⟩ :: linhasDia d n

/-- Test-data builder: one block of rows per day starting at day `d`. -/
def dfContagensDesde (d : Nat) : List Nat → List Venda
  | [] => []
  | c :: resto => linhasDia d c ++ dfContagensDesde (d + 1) resto

/-- Test-data builder: `dfContagens [c1, ..., ck]` has `ci` sale rows on
day `i`, so its daily count series is `[(1, c1), ..., (k, ck)]`. -/
def dfContagens (contagens : List Nat) : List Venda := dfContagensDesde 1 contagens

/-! Helper lemmas (shared across the claim theorems). -/

/-- Membership in an insertion. -/
theorem mem_insere {α : Type} (le : α → α → Bool) (a x : α) (l : List α) :
    x ∈ insere le a l ↔ x = a ∨ x ∈ l := by
  induction l with
  | nil => simp [insere]
  | cons b bs ih =>
    by_cases h : le a b
    · simp [insere, h]
    · simp [insere, h, ih]
      tauto

/-- Sorting does not change the members of a list. -/
theorem mem_ordena {α : Type} (le : α → α → Bool) (x : α) (l : List α) :
    x ∈ ordena le l ↔ x ∈ l := by
  induction l with
  | nil => simp [ordena]
  | cons a as ih => simp [ordena, mem_insere, ih]

/-- Insertion preserves sortedness for a transitive, total Boolean
relation. -/
theorem pairwise_insere {α : Type} (le : α → α → Bool)
    (htrans : ∀ a b c, le a b = true → le b c = true → le a c = true)
    (htotal : ∀ a b, le a b = false → le b a = true)
    (a : α) (l : List α) (h : l.Pairwise fun x y => le x y = true) :
    (insere le a l).Pairwise fun x y => le x y = true := by
  induction l with
  | nil => simp [insere]
  | cons b bs ih =>
    rcases List.pairwise_cons.mp h with ⟨hb, hbs⟩
    by_cases hab : le a b
    · rw [insere, if_pos hab]
      refine List.pairwise_cons.mpr ⟨?_, h⟩
      intro y hy
      rcases List.mem_cons.mp hy with rfl | hy
      · exact hab
      · exact htrans a b y hab (hb y hy)
    · rw [insere, if_neg hab]
      refine List.pairwise_cons.mpr ⟨?_, ih hbs⟩
      intro y hy
      rcases (mem_insere le a y bs).mp hy with hx | hy
      · rw [hx]
        exact htotal a b (by simpa using hab)
      · exact hb y hy

/-- The insertion sort is sorted for a transitive, total Boolean
relation. -/
theorem pairwise_ordena {α : Type} (le : α → α → Bool)
    (htrans : ∀ a b c, le a b = true → le b c = true → le a c = true)
    (htotal : ∀ a b, le a b = false → le b a = true)
    (l : List α) :
    (ordena le l).Pairwise fun x y => le x y = true := by
  induction l with
  | nil => simp [ordena]
  | cons a as ih => exact pairwise_insere le htrans htotal a _ ih

/-- A non-nil filter result exposes the prefix of rejected elements. -/
theorem filter_eq_cons_split {α : Type} (p : α → Bool) :
    ∀ (l : List α) (g : α) (resto : List α), l.filter p = g :: resto →
      ∃ l₁ l₂, l = l₁ ++ g :: l₂ ∧ (∀ y ∈ l₁, p y = false) ∧ p g = true := by
  intro l
  induction l with
  | nil => intro g resto h; simp at h
  | cons a as ih =>
    intro g resto h
    by_cases hp : p a
    · rw [List.filter_cons_of_pos hp] at h
      injection h with h1 h2
      subst h1
      exact ⟨[], as, rfl, by simp, hp⟩
    · rw [List.filter_cons_of_neg hp] at h
      obtain ⟨l₁, l₂, rfl, hfail, hg⟩ := ih g resto h
      refine ⟨a :: l₁, l₂, rfl, ?_, hg⟩
      intro y hy
      rcases List.mem_cons.mp hy with rfl | hy
      · simpa using hp
      · exact hfail y hy

/-- A series with fewer than two entries has no last-two pair. -/
theorem lastTwo_none {α : Type} (s : List (Nat × α)) (h : s.length < 2) :
    lastTwo s = none := by
  rcases s with - | ⟨x, - | ⟨y, t⟩⟩
  · rfl
  · rfl
  · simp at h
    omega

/-- Characterization of the revenue-drop detector through the last two
entries of its filtered daily series. -/
theorem queda_faturamento_caracterizacao (hoje : Nat) (queda_pct : Rat) (df : List Venda) :
    detectar_queda_faturamento hoje queda_pct df =
      match lastTwo (serie_por_dia_completo hoje (porDiaSoma df)) with
      | none => none
      | some (anterior, ultimo) =>
        if anterior.2 = 0 then none
        else if (ultimo.2 - anterior.2) / anterior.2 ≤ -queda_pct then
          some ⟨"queda_faturamento", "alta",
            [("dia_anterior", CtxVal.n anterior.1),
             ("ultimo_dia", CtxVal.n ultimo.1),
             ("faturamento_anterior", CtxVal.q anterior.2),
             ("faturamento_ultimo", CtxVal.q ultimo.2),
             ("variacao_pct", CtxVal.q ((ultimo.2 - anterior.2) / anterior.2 * 100)),
             ("queda_pct_configurada", CtxVal.q (queda_pct * 100))]⟩
        else none := by
  unfold detectar_queda_faturamento lastTwo
  cases hdf : df.isEmpty with
  | true =>
    have hnil : df = [] := List.isEmpty_iff.mp hdf
    subst hnil
    rfl
  | false =>
    rw [if_neg (by simp [hdf])]
    cases hr : (serie_por_dia_completo hoje (porDiaSoma df)).reverse with
    | nil => rfl
    | cons u rest =>
      cases rest with
      | nil =>
        obtain ⟨ud, uv⟩ := u
        rfl
      | cons a t =>
        obtain ⟨ud, uv⟩ := u
        obtain ⟨ad, av⟩ := a
        rfl

/-- Characterization of the volume-drop detector through the last two
entries of its filtered daily count series. -/
theorem queda_vendas_caracterizacao (hoje : Nat) (queda_pct : Rat) (df : List Venda) :
    detectar_queda_numero_vendas hoje queda_pct df =
      match lastTwo (serie_por_dia_completo hoje (porDiaContagem df)) with
      | none => none
      | some (anterior, ultimo) =>
        if anterior.2 = 0 then none
        else if ((ultimo.2 : Rat) - (anterior.2 : Rat)) / (anterior.2 : Rat) ≤ -queda_pct then
          some ⟨"queda_numero_vendas",
            if (6/10 : Rat) ≤ |((ultimo.2 : Rat) - (anterior.2 : Rat)) / (anterior.2 : Rat)| then
              "alta"
            else "media",
            [("dia_anterior", CtxVal.n anterior.1),
             ("ultimo_dia", CtxVal.n ultimo.1),
             ("vendas_anterior", CtxVal.n anterior.2),
             ("vendas_ultimo", CtxVal.n ultimo.2),
             ("variacao_pct", CtxVal.q (((ultimo.2 : Rat) - (anterior.2 : Rat)) / (anterior.2 : Rat) * 100)),
             ("queda_pct_configurada", CtxVal.q (queda_pct * 100))]⟩
        else none := by
  unfold detectar_queda_numero_vendas lastTwo
  cases hdf : df.isEmpty with
  | true =>
    have hnil : df = [] := List.isEmpty_iff.mp hdf
    subst hnil
    rfl
  | false =>
    rw [if_neg (by simp [hdf])]
    cases hr : (serie_por_dia_completo hoje (porDiaContagem df)).reverse with
    | nil => rfl
    | cons u rest =>
      cases rest with
      | nil =>
        obtain ⟨ud, uv⟩ := u
        rfl
      | cons a t =>
        obtain ⟨ud, uv⟩ := u
        obtain ⟨ad, av⟩ := a
        rfl

/-- Characterization of the low-revenue detector through the last entry
of its filtered daily series (whose inline current-day filter agrees
with `serie_por_dia_completo`). -/
theorem muito_baixo_caracterizacao (hoje : Nat) (limite : Rat) (df : List Venda) :
    detectar_faturamento_muito_baixo hoje limite df =
      match (serie_por_dia_completo hoje (porDiaSoma df)).getLast? with
      | none => none
      | some (dia, total) =>
        if total ≤ limite then
          some ⟨"faturamento_muito_baixo", "alta",
            [("dia", CtxVal.n dia),
             ("faturamento_total", CtxVal.q total),
             ("limite_configurado", CtxVal.q limite)]⟩
        else none := by
  unfold detectar_faturamento_muito_baixo serie_por_dia_completo
  cases hdf : df.isEmpty with
  | true =>
    have hnil : df = [] := List.isEmpty_iff.mp hdf
    subst hnil
    rfl
  | false =>
    rw [if_neg (by simp [hdf])]
    dsimp only
    cases hg : (porDiaSoma df).getLast? with
    | none => rfl
    | some u =>
      obtain ⟨ud, uv⟩ := u
      by_cases hu : ud = hoje
      · simp only [hu, if_pos]
      · simp only [if_neg hu, hg]

/-! Claim theorems. -/

/-- C1: for every input record set (the empty one included), `main`'s
detector loop after a successful source read raises `NameError` on its
first iteration - the first lambda calls `detectar_vendas_zeradas`,
which is defined nowhere in the module - so no detector result is ever
collected, no incident is ever written (the write trace is empty), and
neither the incident-count summary nor the OK summary is reached: the
run ends in the `NameError`. -/
theorem C1_loop_detectores_name_error (hoje : Nat) (falha : Alerta → Bool)
    (linhas : List LinhaBruta) :
    rodarDetectores hoje (preparar_df linhas) = Except.error ErroPy.nameError ∧
    mainRun hoje falha linhas = (Except.error ErroPy.nameError, []) :=
  ⟨rfl, rfl⟩

/-- C2 counterexample: with two fired incidents and a sink whose write
fails on the first one, the persistence loop records the failed first
write and never attempts the second incident - the write trace is
`[(a1, false)]` and mentions the second incident nowhere - so the
claimed independence of the per-incident writes is false on this
code. -/
theorem C2_contraexemplo_escrita_abortada :
    registrarTodos (fun a => decide (a.tipo = "t1"))
        [⟨"t1", "alta", []⟩, ⟨"t2", "alta", []⟩] =
      [(⟨"t1", "alta", []⟩, false)] := rfl

/-- C2 amended: the sink writes of a run are sequential and a raised
write error propagates, so an error while persisting the i-th incident
aborts the loop: the incidents before it were written, the failing one
is recorded as failed, and the incidents after it are never attempted
(the run reports no per-incident success/failure beyond that). -/
theorem C2_emenda_falha_aborta_escritas (falha : Alerta → Bool)
    (pre : List Alerta) (a : Alerta) (resto : List Alerta)
    (hpre : ∀ b ∈ pre, falha b = false) (ha : falha a = true) :
    registrarTodos falha (pre ++ a :: resto) =
      pre.map (fun b => (b, true)) ++ [(a, false)] := by
  induction pre with
  | nil => simp [registrarTodos, ha]
  | cons b bs ih =>
    have hb : falha b = false := hpre b (by simp)
    simp only [List.cons_append, registrarTodos, hb, Bool.false_eq_true, if_false,
      List.map_cons, List.append_eq]
    rw [ih (fun x hx => hpre x (by simp [hx]))]

/-- C2 amended, witness: a concrete three-incident run where the second
write fails: the first incident is written, the second fails, the third
is never attempted. -/
theorem C2_emenda_falha_aborta_escritas_testemunha :
    registrarTodos (fun a => decide (a.tipo = "t1"))
        ([⟨"t0", "alta", []⟩] ++ (⟨"t1", "alta", []⟩ : Alerta) :: [⟨"t2", "alta", []⟩]) =
      [(⟨"t0", "alta", []⟩ : Alerta)].map (fun b => (b, true)) ++
        [((⟨"t1", "alta", []⟩ : Alerta), false)] :=
  C2_emenda_falha_aborta_escritas (fun a => decide (a.tipo = "t1"))
    [⟨"t0", "alta", []⟩] ⟨"t1", "alta", []⟩ [⟨"t2", "alta", []⟩]
    (by intro b hb; simp at hb; simp [hb]) (by simp)

/-- C7: on the empty record set every detector defined in the module
declines (returns `none`), as the claim says; but the run does not end
in the neutral no-incident summary with total 0 that the claim
requires: the detector loop raises `NameError` (its first lambda calls
the undefined `detectar_vendas_zeradas`) on its first iteration, so the
run aborts with the error instead. -/
theorem C7_entrada_vazia_name_error (hoje : Nat) (queda_pct limite : Rat)
    (lim : Nat) (falha : Alerta → Bool) :
    detectar_queda_faturamento hoje queda_pct [] = none ∧
    detectar_faturamento_muito_baixo hoje limite [] = none ∧
    detectar_queda_numero_vendas hoje queda_pct [] = none ∧
    detectar_possivel_fraude_duplicidade lim [] = none ∧
    mainRun hoje falha [] = (Except.error ErroPy.nameError, []) :=
  ⟨rfl, rfl, rfl, rfl, rfl⟩

/-- Revenue-drop detector on a series with fewer than two entries. -/
theorem queda_faturamento_eq_none (hoje : Nat) (queda_pct : Rat) (df : List Venda)
    (h : lastTwo (serie_por_dia_completo hoje (porDiaSoma df)) = none) :
    detectar_queda_faturamento hoje queda_pct df = none := by
  rw [queda_faturamento_caracterizacao, h]

/-- Revenue-drop detector once its two comparison points exist. -/
theorem queda_faturamento_eq_some (hoje : Nat) (queda_pct : Rat) (df : List Venda)
    (anterior ultimo : Nat × Rat)
    (h : lastTwo (serie_por_dia_completo hoje (porDiaSoma df)) = some (anterior, ultimo)) :
    detectar_queda_faturamento hoje queda_pct df =
      (if anterior.2 = 0 then none
       else if (ultimo.2 - anterior.2) / anterior.2 ≤ -queda_pct then
         some ⟨"queda_faturamento", "alta",
           [("dia_anterior", CtxVal.n anterior.1),
            ("ultimo_dia", CtxVal.n ultimo.1),
            ("faturamento_anterior", CtxVal.q anterior.2),
            ("faturamento_ultimo", CtxVal.q ultimo.2),
            ("variacao_pct", CtxVal.q ((ultimo.2 - anterior.2) / anterior.2 * 100)),
            ("queda_pct_configurada", CtxVal.q (queda_pct * 100))]⟩
       else none) := by
  rw [queda_faturamento_caracterizacao, h]

/-- Volume-drop detector on a series with fewer than two entries. -/
theorem queda_vendas_eq_none (hoje : Nat) (queda_pct : Rat) (df : List Venda)
    (h : lastTwo (serie_por_dia_completo hoje (porDiaContagem df)) = none) :
    detectar_queda_numero_vendas hoje queda_pct df = none := by
  rw [queda_vendas_caracterizacao, h]

/-- Volume-drop detector once its two comparison points exist. -/
theorem queda_vendas_eq_some (hoje : Nat) (queda_pct : Rat) (df : List Venda)
    (anterior ultimo : Nat × Nat)
    (h : lastTwo (serie_por_dia_completo hoje (porDiaContagem df)) = some (anterior, ultimo)) :
    detectar_queda_numero_vendas hoje queda_pct df =
      (if anterior.2 = 0 then none
       else if ((ultimo.2 : Rat) - (anterior.2 : Rat)) / (anterior.2 : Rat) ≤ -queda_pct then
         some ⟨"queda_numero_vendas",
           if (6/10 : Rat) ≤ |((ultimo.2 : Rat) - (anterior.2 : Rat)) / (anterior.2 : Rat)| then
             "alta"
           else "media",
           [("dia_anterior", CtxVal.n anterior.1),
            ("ultimo_dia", CtxVal.n ultimo.1),
            ("vendas_anterior", CtxVal.n anterior.2),
            ("vendas_ultimo", CtxVal.n ultimo.2),
            ("variacao_pct", CtxVal.q (((ultimo.2 : Rat) - (anterior.2 : Rat)) / (anterior.2 : Rat) * 100)),
            ("queda_pct_configurada", CtxVal.q (queda_pct * 100))]⟩
       else none) := by
  rw [queda_vendas_caracterizacao, h]

/-- Low-revenue detector once the latest complete entry exists. -/
theorem muito_baixo_eq_some (hoje : Nat) (limite : Rat) (df : List Venda)
    (dia : Nat) (total : Rat)
    (h : (serie_por_dia_completo hoje (porDiaSoma df)).getLast? = some (dia, total)) :
    detectar_faturamento_muito_baixo hoje limite df =
      (if total ≤ limite then
        some ⟨"faturamento_muito_baixo", "alta",
          [("dia", CtxVal.n dia),
           ("faturamento_total", CtxVal.q total),
           ("limite_configurado", CtxVal.q limite)]⟩
      else none) := by
  rw [muito_baixo_caracterizacao, h]

/-- C3: the low-revenue detector itself behaves as claimed - given the
latest entry of the filtered daily amount series it fires exactly when
that value is at most the floor, always with severity "alta", and one
populated day suffices (a single record of amount 5 with floor 10
fires) - but the run-level half of the claim fails on this code:
`main`'s detector loop never invokes `detectar_faturamento_muito_baixo`
(its first lambda calls the undefined `detectar_vendas_zeradas`, which
raises `NameError` and aborts the loop, and the low-revenue detector is
absent from the list anyway), so the rule is not evaluated, in addition
to Revenue Drop or otherwise, in any run. -/
theorem C3_baixo_nunca_avaliado_no_main :
    (∀ (hoje : Nat) (limite : Rat) (df : List Venda) (dia : Nat) (total : Rat),
      (serie_por_dia_completo hoje (porDiaSoma df)).getLast? = some (dia, total) →
      detectar_faturamento_muito_baixo hoje limite df =
        (if total ≤ limite then
          some ⟨"faturamento_muito_baixo", "alta",
            [("dia", CtxVal.n dia),
             ("faturamento_total", CtxVal.q total),
             ("limite_configurado", CtxVal.q limite)]⟩
        else none)) ∧
    (detectar_faturamento_muito_baixo 2 10 [⟨1, 1, "c", 5⟩] =
      some ⟨"faturamento_muito_baixo", "alta",
        [("dia", CtxVal.n 1),
         ("faturamento_total", CtxVal.q 5),
         ("limite_configurado", CtxVal.q 10)]⟩) ∧
    (∀ (hoje : Nat) (falha : Alerta → Bool) (linhas : List LinhaBruta),
      mainRun hoje falha linhas = (Except.error ErroPy.nameError, [])) := by
  refine ⟨muito_baixo_eq_some, ?_, fun _ _ _ => rfl⟩
  norm_num [detectar_faturamento_muito_baixo, porDiaSoma, datasOrdenadas, ordena,
    insere, List.dedup_cons_of_mem, List.dedup_cons_of_not_mem, List.filter]

/-- C3 witness: the first part of the theorem applied at a concrete
single-day record set (day 2, amount 4, floor 10, run on day 3). -/
theorem C3_baixo_nunca_avaliado_no_main_testemunha :
    detectar_faturamento_muito_baixo 3 10 [⟨7, 2, "x", 4⟩] =
      some ⟨"faturamento_muito_baixo", "alta",
        [("dia", CtxVal.n 2),
         ("faturamento_total", CtxVal.q 4),
         ("limite_configurado", CtxVal.q 10)]⟩ := by
  rw [C3_baixo_nunca_avaliado_no_main.1 3 10 [⟨7, 2, "x", 4⟩] 2 4
    (by norm_num [serie_por_dia_completo, porDiaSoma, datasOrdenadas, ordena, insere,
      List.dedup_cons_of_mem, List.dedup_cons_of_not_mem, List.filter])]
  norm_num

/-- C4: for every normalized record set, the revenue-drop detector
returns nothing when the filtered daily amount series has fewer than
two entries; it never fires when the second-to-last value is zero; and
otherwise it fires exactly when `(latest - previous) / previous` is at
most `-queda_pct`, always with severity "alta" and with a context
holding both raw values, the variation and the configured threshold as
percentages, and both dates. -/
theorem C4_queda_faturamento_contrato (hoje : Nat) (queda_pct : Rat) (df : List Venda) :
    ((serie_por_dia_completo hoje (porDiaSoma df)).length < 2 →
      detectar_queda_faturamento hoje queda_pct df = none) ∧
    (∀ anterior ultimo : Nat × Rat,
      lastTwo (serie_por_dia_completo hoje (porDiaSoma df)) = some (anterior, ultimo) →
      (anterior.2 = 0 → detectar_queda_faturamento hoje queda_pct df = none) ∧
      (anterior.2 ≠ 0 →
        detectar_queda_faturamento hoje queda_pct df =
          (if (ultimo.2 - anterior.2) / anterior.2 ≤ -queda_pct then
            some ⟨"queda_faturamento", "alta",
              [("dia_anterior", CtxVal.n anterior.1),
               ("ultimo_dia", CtxVal.n ultimo.1),
               ("faturamento_anterior", CtxVal.q anterior.2),
               ("faturamento_ultimo", CtxVal.q ultimo.2),
               ("variacao_pct", CtxVal.q ((ultimo.2 - anterior.2) / anterior.2 * 100)),
               ("queda_pct_configurada", CtxVal.q (queda_pct * 100))]⟩
          else none))) := by
  constructor
  · intro h
    exact queda_faturamento_eq_none hoje queda_pct df (lastTwo_none _ h)
  · intro anterior ultimo hlt
    rw [queda_faturamento_eq_some hoje queda_pct df anterior ultimo hlt]
    constructor
    · intro h0
      rw [if_pos h0]
    · intro hne
      rw [if_neg hne]

/-- C4 witness: the contract applied at a concrete record set with one
sale per day of amounts 100, 100, 40 on days 1, 2, 3, run on day 4 with
the default threshold 0.30. -/
theorem C4_queda_faturamento_contrato_testemunha :
    detectar_queda_faturamento 4 (3/10)
        [⟨1, 1, "c", 100⟩, ⟨2, 2, "c", 100⟩, ⟨3, 3, "c", 40⟩] =
      some ⟨"queda_faturamento", "alta",
        [("dia_anterior", CtxVal.n 2),
         ("ultimo_dia", CtxVal.n 3),
         ("faturamento_anterior", CtxVal.q 100),
         ("faturamento_ultimo", CtxVal.q 40),
         ("variacao_pct", CtxVal.q (-60)),
         ("queda_pct_configurada", CtxVal.q 30)]⟩ := by
  have h := ((C4_queda_faturamento_contrato 4 (3/10)
      [⟨1, 1, "c", 100⟩, ⟨2, 2, "c", 100⟩, ⟨3, 3, "c", 40⟩]).2 (2, 100) (3, 40)
      (by norm_num [lastTwo, serie_por_dia_completo, porDiaSoma, datasOrdenadas, ordena,
        insere, List.dedup_cons_of_mem, List.dedup_cons_of_not_mem, List.filter])).2
      (by norm_num)
  rw [h]
  norm_num

/-- C5: whenever the volume-drop detector fires, the reported severity
is "alta" exactly when the magnitude of the variation is at least 0.60
and "media" otherwise; in particular the daily count series
`[10, 10, 4]` (a 60 percent drop) yields severity "alta" and
`[10, 10, 6]` (a 40 percent drop) yields severity "media". -/
theorem C5_severidade_queda_vendas :
    (∀ (hoje : Nat) (queda_pct : Rat) (df : List Venda) (a : Alerta),
      detectar_queda_numero_vendas hoje queda_pct df = some a →
      ∃ anterior ultimo : Nat × Nat,
        lastTwo (serie_por_dia_completo hoje (porDiaContagem df)) = some (anterior, ultimo) ∧
        a.severidade =
          (if (6/10 : Rat) ≤ |((ultimo.2 : Rat) - (anterior.2 : Rat)) / (anterior.2 : Rat)| then
            "alta"
          else "media")) ∧
    (detectar_queda_numero_vendas 4 (3/10) (dfContagens [10, 10, 4]) =
      some ⟨"queda_numero_vendas", "alta",
        [("dia_anterior", CtxVal.n 2),
         ("ultimo_dia", CtxVal.n 3),
         ("vendas_anterior", CtxVal.n 10),
         ("vendas_ultimo", CtxVal.n 4),
         ("variacao_pct", CtxVal.q (-60)),
         ("queda_pct_configurada", CtxVal.q 30)]⟩) ∧
    (detectar_queda_numero_vendas 4 (3/10) (dfContagens [10, 10, 6]) =
      some ⟨"queda_numero_vendas", "media",
        [("dia_anterior", CtxVal.n 2),
         ("ultimo_dia", CtxVal.n 3),
         ("vendas_anterior", CtxVal.n 10),
         ("vendas_ultimo", CtxVal.n 6),
         ("variacao_pct", CtxVal.q (-40)),
         ("queda_pct_configurada", CtxVal.q 30)]⟩) := by
  refine ⟨?_, ?_, ?_⟩
  · intro hoje queda_pct df a ha
    cases hlt : lastTwo (serie_por_dia_completo hoje (porDiaContagem df)) with
    | none =>
      rw [queda_vendas_eq_none hoje queda_pct df hlt] at ha
      cases ha
    | some p =>
      obtain ⟨anterior, ultimo⟩ := p
      rw [queda_vendas_eq_some hoje queda_pct df anterior ultimo hlt] at ha
      refine ⟨anterior, ultimo, rfl, ?_⟩
      split_ifs at ha with h0 hv hsev
      · injection ha with ha'
        subst ha'
        simp [hsev]
      · injection ha with ha'
        subst ha'
        simp [hsev]
  · norm_num [detectar_queda_numero_vendas, serie_por_dia_completo, porDiaContagem,
      datasOrdenadas, ordena, insere, dfContagens, dfContagensDesde, linhasDia,
      List.dedup_cons_of_mem, List.dedup_cons_of_not_mem, List.filter, abs_neg,
      abs_of_nonneg]
  · norm_num [detectar_queda_numero_vendas, serie_por_dia_completo, porDiaContagem,
      datasOrdenadas, ordena, insere, dfContagens, dfContagensDesde, linhasDia,
      List.dedup_cons_of_mem, List.dedup_cons_of_not_mem, List.filter, abs_neg,
      abs_of_nonneg]

/-- C5 witness: the severity rule of the theorem applied to the fired
alert of the concrete 60-percent-drop series. -/
theorem C5_severidade_queda_vendas_testemunha :
    ∃ anterior ultimo : Nat × Nat,
      lastTwo (serie_por_dia_completo 4 (porDiaContagem (dfContagens [10, 10, 4]))) =
        some (anterior, ultimo) ∧
      (⟨"queda_numero_vendas", "alta",
        [("dia_anterior", CtxVal.n 2),
         ("ultimo_dia", CtxVal.n 3),
         ("vendas_anterior", CtxVal.n 10),
         ("vendas_ultimo", CtxVal.n 4),
         ("variacao_pct", CtxVal.q (-60)),
         ("queda_pct_configurada", CtxVal.q 30)]⟩ : Alerta).severidade =
        (if (6/10 : Rat) ≤ |((ultimo.2 : Rat) - (anterior.2 : Rat)) / (anterior.2 : Rat)| then
          "alta"
        else "media") :=
  C5_severidade_queda_vendas.1 4 (3/10) (dfContagens [10, 10, 4]) _
    C5_severidade_queda_vendas.2.1

/-- C6: Revenue Drop and Volume Drop use the identical two-point
selection: every fired alert of either detector reports, in its
context, exactly the last entry (`latest`) and the entry immediately
preceding it (`previous`) of that detector's completeness-filtered
populated series, both selected by the shared `lastTwo`; and on the
amount series 100, 100, 40 dated days 1, 2, 3 with the default
threshold 0.30, Revenue Drop compares day 3 (40) against day 2 (100)
and fires with severity "alta" and `variacao_pct = -60`. -/
theorem C6_selecao_dois_pontos :
    (∀ (hoje : Nat) (queda_pct : Rat) (df : List Venda) (a : Alerta),
      detectar_queda_faturamento hoje queda_pct df = some a →
      ∃ anterior ultimo : Nat × Rat,
        lastTwo (serie_por_dia_completo hoje (porDiaSoma df)) = some (anterior, ultimo) ∧
        a.contexto =
          [("dia_anterior", CtxVal.n anterior.1),
           ("ultimo_dia", CtxVal.n ultimo.1),
           ("faturamento_anterior", CtxVal.q anterior.2),
           ("faturamento_ultimo", CtxVal.q ultimo.2),
           ("variacao_pct", CtxVal.q ((ultimo.2 - anterior.2) / anterior.2 * 100)),
           ("queda_pct_configurada", CtxVal.q (queda_pct * 100))]) ∧
    (∀ (hoje : Nat) (queda_pct : Rat) (df : List Venda) (a : Alerta),
      detectar_queda_numero_vendas hoje queda_pct df = some a →
      ∃ anterior ultimo : Nat × Nat,
        lastTwo (serie_por_dia_completo hoje (porDiaContagem df)) = some (anterior, ultimo) ∧
        a.contexto =
          [("dia_anterior", CtxVal.n anterior.1),
           ("ultimo_dia", CtxVal.n ultimo.1),
           ("vendas_anterior", CtxVal.n anterior.2),
           ("vendas_ultimo", CtxVal.n ultimo.2),
           ("variacao_pct", CtxVal.q (((ultimo.2 : Rat) - (anterior.2 : Rat)) / (anterior.2 : Rat) * 100)),
           ("queda_pct_configurada", CtxVal.q (queda_pct * 100))]) ∧
    (detectar_queda_faturamento 4 (3/10)
        [⟨1, 1, "d", 100⟩, ⟨2, 2, "d", 100⟩, ⟨3, 3, "d", 40⟩] =
      some ⟨"queda_faturamento", "alta",
        [("dia_anterior", CtxVal.n 2),
         ("ultimo_dia", CtxVal.n 3),
         ("faturamento_anterior", CtxVal.q 100),
         ("faturamento_ultimo", CtxVal.q 40),
         ("variacao_pct", CtxVal.q (-60)),
         ("queda_pct_configurada", CtxVal.q 30)]⟩) := by
  refine ⟨?_, ?_, ?_⟩
  · intro hoje queda_pct df a ha
    cases hlt : lastTwo (serie_por_dia_completo hoje (porDiaSoma df)) with
    | none =>
      rw [queda_faturamento_eq_none hoje queda_pct df hlt] at ha
      cases ha
    | some p =>
      obtain ⟨anterior, ultimo⟩ := p
      rw [queda_faturamento_eq_some hoje queda_pct df anterior ultimo hlt] at ha
      refine ⟨anterior, ultimo, rfl, ?_⟩
      split_ifs at ha with h0 hv
      injection ha with ha'
      subst ha'
      rfl
  · intro hoje queda_pct df a ha
    cases hlt : lastTwo (serie_por_dia_completo hoje (porDiaContagem df)) with
    | none =>
      rw [queda_vendas_eq_none hoje queda_pct df hlt] at ha
      cases ha
    | some p =>
      obtain ⟨anterior, ultimo⟩ := p
      rw [queda_vendas_eq_some hoje queda_pct df anterior ultimo hlt] at ha
      refine ⟨anterior, ultimo, rfl, ?_⟩
      split_ifs at ha with h0 hv hsev
      · injection ha with ha'
        subst ha'
        rfl
      · injection ha with ha'
        subst ha'
        rfl
  · norm_num [detectar_queda_faturamento, serie_por_dia_completo, porDiaSoma,
      datasOrdenadas, ordena, insere, List.dedup_cons_of_mem, List.dedup_cons_of_not_mem,
      List.filter]

/-- C6 witness: the revenue-drop half of the selection rule applied to
the fired alert of the concrete 100, 100, 40 series. -/
theorem C6_selecao_dois_pontos_testemunha :
    ∃ anterior ultimo : Nat × Rat,
      lastTwo (serie_por_dia_completo 4
          (porDiaSoma [⟨1, 1, "d", 100⟩, ⟨2, 2, "d", 100⟩, ⟨3, 3, "d", 40⟩])) =
        some (anterior, ultimo) ∧
      (⟨"queda_faturamento", "alta",
        [("dia_anterior", CtxVal.n 2),
         ("ultimo_dia", CtxVal.n 3),
         ("faturamento_anterior", CtxVal.q 100),
         ("faturamento_ultimo", CtxVal.q 40),
         ("variacao_pct", CtxVal.q (-60)),
         ("queda_pct_configurada", CtxVal.q 30)]⟩ : Alerta).contexto =
        [("dia_anterior", CtxVal.n anterior.1),
         ("ultimo_dia", CtxVal.n ultimo.1),
         ("faturamento_anterior", CtxVal.q anterior.2),
         ("faturamento_ultimo", CtxVal.q ultimo.2),
         ("variacao_pct", CtxVal.q ((ultimo.2 - anterior.2) / anterior.2 * 100)),
         ("queda_pct_configurada", CtxVal.q ((3/10 : Rat) * 100))] :=
  C6_selecao_dois_pontos.1 4 (3/10)
    [⟨1, 1, "d", 100⟩, ⟨2, 2, "d", 100⟩, ⟨3, 3, "d", 40⟩] _
    C6_selecao_dois_pontos.2.2

/-- C8: the duplicate heuristic groups records by (day, customer,
amount); when no group's count reaches the threshold it declines, and
otherwise - whenever some group's count reaches the threshold - it
does emit an alert (last conjunct), which is exactly one alert, for a
group of maximal repetition count, whose context carries the customer,
the repeated amount, the count, the day, and the configured threshold;
on the record set with three (D1, Alice, 50) rows and one (D1, Bob, 20)
row at threshold 3 it fires exactly the Alice alert (count 3) and Bob
is not reported. -/
theorem C8_fraude_duplicidade_grupo_maximo :
    (∀ (limite : Nat) (df : List Venda),
      (∀ g ∈ grupos df, g.2 < limite) →
      detectar_possivel_fraude_duplicidade limite df = none) ∧
    (∀ (limite : Nat) (df : List Venda) (a : Alerta),
      detectar_possivel_fraude_duplicidade limite df = some a →
      ∃ g ∈ grupos df, limite ≤ g.2 ∧ (∀ g2 ∈ grupos df, g2.2 ≤ g.2) ∧
        a = ⟨"possivel_fraude_duplicidade", "alta",
          [("data_venda", CtxVal.n g.1.1),
           ("cliente", CtxVal.s g.1.2.1),
           ("valor_total", CtxVal.q g.1.2.2),
           ("repeticoes", CtxVal.n g.2),
           ("limite_repeticoes", CtxVal.n limite)]⟩) ∧
    (detectar_possivel_fraude_duplicidade 3
        [⟨1, 1, "Alice", 50⟩, ⟨2, 1, "Alice", 50⟩, ⟨3, 1, "Alice", 50⟩, ⟨4, 1, "Bob", 20⟩] =
      some ⟨"possivel_fraude_duplicidade", "alta",
        [("data_venda", CtxVal.n 1),
         ("cliente", CtxVal.s "Alice"),
         ("valor_total", CtxVal.q 50),
         ("repeticoes", CtxVal.n 3),
         ("limite_repeticoes", CtxVal.n 3)]⟩) ∧
    (∀ (limite : Nat) (df : List Venda),
      (∃ g ∈ grupos df, limite ≤ g.2) →
      ∃ a, detectar_possivel_fraude_duplicidade limite df = some a) := by
  refine ⟨?_, ?_, ?_, ?_⟩
  · intro limite df h
    unfold detectar_possivel_fraude_duplicidade
    cases hdf : df.isEmpty with
    | true => simp
    | false =>
      rw [if_neg (by simp [hdf])]
      dsimp only
      have hfil : (ordena (fun a b => decide (b.2 ≤ a.2)) (grupos df)).filter
          (fun g => decide (limite ≤ g.2)) = [] := by
        rw [List.filter_eq_nil_iff]
        intro g hg
        have hmem := (mem_ordena _ g _).mp hg
        have hlt := h g hmem
        simp only [decide_eq_true_eq]
        omega
      rw [hfil]
  · intro limite df a ha
    unfold detectar_possivel_fraude_duplicidade at ha
    cases hdf : df.isEmpty with
    | true =>
      rw [if_pos hdf] at ha
      cases ha
    | false =>
      rw [if_neg (by simp [hdf])] at ha
      dsimp only at ha
      cases hfil : (ordena (fun a b => decide (b.2 ≤ a.2)) (grupos df)).filter
          (fun g => decide (limite ≤ g.2)) with
      | nil =>
        rw [hfil] at ha
        cases ha
      | cons g resto =>
        rw [hfil] at ha
        injection ha with ha'
        obtain ⟨l₁, l₂, hsplit, hfailed, hpg⟩ :=
          filter_eq_cons_split _ _ g resto hfil
        have hglim : limite ≤ g.2 := of_decide_eq_true hpg
        have hpw := pairwise_ordena (fun a b => decide (b.2 ≤ a.2))
          (fun x y z h1 h2 => by
            simp only [decide_eq_true_eq] at h1 h2 ⊢
            omega)
          (fun x y hf => by
            simp only [decide_eq_false_iff_not] at hf
            simp only [decide_eq_true_eq]
            omega)
          (grupos df)
        rw [hsplit] at hpw
        have hl1 : l₁ = [] := by
          cases l₁ with
          | nil => rfl
          | cons y ys =>
            exfalso
            have hyfail := hfailed y (by simp)
            have hyg := (List.pairwise_append.mp hpw).2.2 y (by simp) g (by simp)
            simp only [decide_eq_false_iff_not] at hyfail
            simp only [decide_eq_true_eq] at hyg
            omega
        subst hl1
        simp only [List.nil_append] at hsplit hpw
        refine ⟨g, ?_, hglim, ?_, ha'.symm⟩
        · exact (mem_ordena _ g _).mp (by rw [hsplit]; exact List.mem_cons_self g l₂)
        · intro g2 hg2
          have hg2o := (mem_ordena (fun a b => decide (b.2 ≤ a.2)) g2 (grupos df)).mpr hg2
          rw [hsplit] at hg2o
          rcases List.mem_cons.mp hg2o with hx | hx
          · rw [hx]
          · exact of_decide_eq_true ((List.pairwise_cons.mp hpw).1 g2 hx)
  · norm_num [detectar_possivel_fraude_duplicidade, grupos, ordena, insere,
      List.dedup_cons_of_mem, List.dedup_cons_of_not_mem, List.filter]
  · intro limite df hex
    obtain ⟨g, hg, hge⟩ := hex
    unfold detectar_possivel_fraude_duplicidade
    have hdf : df.isEmpty = false := by
      rw [List.isEmpty_eq_false]
      intro hnil
      rw [hnil] at hg
      simp [grupos] at hg
    rw [if_neg (by simp [hdf])]
    dsimp only
    cases hfil : (ordena (fun a b => decide (b.2 ≤ a.2)) (grupos df)).filter
        (fun g => decide (limite ≤ g.2)) with
    | nil =>
      exfalso
      have hq := List.filter_eq_nil_iff.mp hfil g ((mem_ordena _ g _).mpr hg)
      simp only [decide_eq_true_eq] at hq
      omega
    | cons g0 t =>
      exact ⟨_, rfl⟩

/-- C8 witness: the decline rule of the theorem applied at a concrete
record set whose strongest group (two Bob rows) stays below the
threshold 3. -/
theorem C8_fraude_duplicidade_grupo_maximo_testemunha :
    detectar_possivel_fraude_duplicidade 3 [⟨1, 1, "Bob", 20⟩, ⟨2, 1, "Bob", 20⟩] = none :=
  C8_fraude_duplicidade_grupo_maximo.1 3 [⟨1, 1, "Bob", 20⟩, ⟨2, 1, "Bob", 20⟩]
    (by norm_num [grupos, List.dedup_cons_of_mem, List.dedup_cons_of_not_mem, List.filter])

/-- Every normalized row originates from an input row carrying its
(successfully parsed) sale date. -/
theorem data_de_linha (linhas : List LinhaBruta) (v : Venda)
    (hv : v ∈ preparar_df linhas) :
    ∃ r ∈ linhas, r.data_venda = some v.data_venda := by
  unfold preparar_df at hv
  rw [List.mem_filterMap] at hv
  obtain ⟨r, hr, hrf⟩ := hv
  refine ⟨r, hr, ?_⟩
  cases hrd : r.data_venda with
  | none =>
    rw [hrd] at hrf
    cases hrf
  | some d0 =>
    rw [hrd] at hrf
    injection hrf with hrf'
    subst hrf'
    rfl

/-- C9: the completeness filter removes the last entry of a day-ordered
series exactly when that entry's date equals `hoje` (the run date), and
on every strictly date-increasing series it is idempotent: filtering
twice with the same `hoje` gives the same series as filtering once. -/
theorem C9_filtro_dia_completo {α : Type} (hoje : Nat) (s : List (Nat × α)) :
    (∀ u, s.getLast? = some u →
      serie_por_dia_completo hoje s = (if u.1 = hoje then s.dropLast else s)) ∧
    (List.Pairwise (fun p q : Nat × α => p.1 < q.1) s →
      serie_por_dia_completo hoje (serie_por_dia_completo hoje s) =
        serie_por_dia_completo hoje s) := by
  constructor
  · intro u hu
    unfold serie_por_dia_completo
    rw [hu]
  · intro hpw
    rcases s.eq_nil_or_concat with rfl | ⟨l, u, rfl⟩
    · rfl
    · have hserie : serie_por_dia_completo hoje (l.concat u) =
          (if u.1 = hoje then l else l.concat u) := by
        unfold serie_por_dia_completo
        rw [List.concat_eq_append, List.getLast?_concat]
        dsimp only
        by_cases hu : u.1 = hoje
        · rw [if_pos hu, if_pos hu, List.dropLast_concat]
        · rw [if_neg hu, if_neg hu]
      rw [hserie]
      by_cases hu : u.1 = hoje
      · rw [if_pos hu]
        unfold serie_por_dia_completo
        cases hl : l.getLast? with
        | none => rfl
        | some v =>
          have hv : v ∈ l := List.mem_of_mem_getLast? hl
          rw [List.concat_eq_append] at hpw
          have hlt : v.1 < u.1 := (List.pairwise_append.mp hpw).2.2 v hv u (by simp)
          have hne : ¬v.1 = hoje := by omega
          dsimp only
          rw [if_neg hne]
      · rw [if_neg hu, hserie, if_neg hu]

/-- C9 witness: idempotence applied at a concrete strictly increasing
two-day series whose last date is the run date. -/
theorem C9_filtro_dia_completo_testemunha :
    serie_por_dia_completo 2 (serie_por_dia_completo 2 [((1 : Nat), (5 : Rat)), (2, 7)]) =
      serie_por_dia_completo 2 [((1 : Nat), (5 : Rat)), (2, 7)] :=
  (C9_filtro_dia_completo 2 [((1 : Nat), (5 : Rat)), (2, 7)]).2 (by decide)

/-- C10: the row normalizer keeps exactly the rows whose date parses
(in order, with the parsed date and the amount defaulted to 0 when it
fails to parse); a row with a parsable date but unparsable amount is
kept with amount 0; and every date occurring in the daily series or in
the duplicate grouping comes from a row whose date parsed, so
unparsable-date rows appear in neither. -/
theorem C10_normalizacao_linhas (linhas : List LinhaBruta) :
    (preparar_df linhas =
      (linhas.filter fun r => r.data_venda.isSome).map
        fun r => ⟨r.id, r.data_venda.getD 0, r.cliente, r.valor_total.getD 0⟩) ∧
    (∀ r ∈ linhas, ∀ d, r.data_venda = some d → r.valor_total = none →
      (⟨r.id, d, r.cliente, 0⟩ : Venda) ∈ preparar_df linhas) ∧
    (∀ d, d ∈ datasOrdenadas (preparar_df linhas) →
      ∃ r ∈ linhas, r.data_venda = some d) ∧
    (∀ g ∈ grupos (preparar_df linhas), ∃ r ∈ linhas, r.data_venda = some g.1.1) := by
  refine ⟨?_, ?_, ?_, ?_⟩
  · induction linhas with
    | nil => rfl
    | cons r rs ih =>
      unfold preparar_df at ih ⊢
      cases hd : r.data_venda with
      | none => simp [List.filterMap_cons, hd, List.filter_cons, ih]
      | some d => simp [List.filterMap_cons, hd, List.filter_cons, ih]
  · intro r hr d hd hv
    unfold preparar_df
    rw [List.mem_filterMap]
    exact ⟨r, hr, by rw [hd, hv]; rfl⟩
  · intro d hd
    have h1 : d ∈ (preparar_df linhas).map Venda.data_venda :=
      List.mem_dedup.mp ((mem_ordena _ d _).mp hd)
    rw [List.mem_map] at h1
    obtain ⟨v, hv, hvd⟩ := h1
    obtain ⟨r, hr, hrd⟩ := data_de_linha linhas v hv
    exact ⟨r, hr, by rw [hrd, hvd]⟩
  · intro g hg
    unfold grupos at hg
    rw [List.mem_map] at hg
    obtain ⟨c, hc, hcg⟩ := hg
    have hc2 : c ∈ (preparar_df linhas).map
        fun v => (v.data_venda, v.cliente, v.valor_total) := List.mem_dedup.mp hc
    rw [List.mem_map] at hc2
    obtain ⟨v, hv, hvc⟩ := hc2
    obtain ⟨r, hr, hrd⟩ := data_de_linha linhas v hv
    refine ⟨r, hr, ?_⟩
    rw [hrd, ← hcg, ← hvc]

/-- C10 witness: a row with a parsable date (3) and an unparsable
amount is kept with amount 0. -/
theorem C10_normalizacao_linhas_testemunha :
    (⟨1, 3, "c", 0⟩ : Venda) ∈ preparar_df [⟨1, some 3, "c", none⟩] :=
  (C10_normalizacao_linhas [⟨1, some 3, "c", none⟩]).2.1 ⟨1, some 3, "c", none⟩
    (by simp) 3 rfl rfl

/-- C1 witness: the run outcome of the theorem at a concrete one-row
input. -/
theorem C1_loop_detectores_name_error_testemunha :
    mainRun 2 (fun _ => false) [⟨1, some 1, "c", some 5⟩] =
      (Except.error ErroPy.nameError, []) :=
  (C1_loop_detectores_name_error 2 (fun _ => false) [⟨1, some 1, "c", some 5⟩]).2

/-- C7 witness: the theorem instantiated at the default parameters. -/
theorem C7_entrada_vazia_name_error_testemunha :
    detectar_queda_faturamento 1 (3/10) [] = none ∧
    mainRun 1 (fun _ => false) [] = (Except.error ErroPy.nameError, []) :=
  ⟨(C7_entrada_vazia_name_error 1 (3/10) 10 3 (fun _ => false)).1,
   (C7_entrada_vazia_name_error 1 (3/10) 10 3 (fun _ => false)).2.2.2.2⟩
